import Mathlib

/-!
Verification of `src/db/models/oauth.js`: the `OAuth` identity model, the
`OAuth.V2` login-completion handler, and the `OAuth.setupStrategy` helper.

The JavaScript source is shallowly embedded. Database state (the `oauths`
table, the `users` table) is explicit; the Sequelize collaborators used by
the handler (`findOrCreate`, `save`, `getUser`, `setUser`, `User.create`)
are modelled as pure state-passing operations following the contract the
source relies on. The possibility that any awaited persistence operation
rejects is modelled by a `Faults` parameter: each operation may be marked
as rejecting with a given error. The handler records every call it makes
to the Passport `done` callback and an event trace of its suspension
points, so that exactly-once invocation and ordering can be stated.
-/

/-- The parts of a Passport profile the handler reads:
`profile.provider`, `profile.id`, `profile.displayName`. -/
structure Profile where
  provider : String
  id : String
  displayName : String
deriving DecidableEq, Repr

/-- One row of the `oauths` table, with the columns declared in the
`db.define('oauths', ...)` schema, plus the row id and the foreign key to
`users` implied by the `getUser`/`setUser` association accessors. -/
structure OAuthRow where
  rowId : Nat
  uid : String
  provider : String
  accessToken : Option String
  refreshToken : Option String
  token : Option String
  tokenSecret : Option String
  profileJson : Option Profile
  userId : Option Nat
deriving DecidableEq, Repr

/-- One row of the external `users` table; `OAuth.V2` only supplies `name`. -/
structure UserRow where
  userId : Nat
  name : String
deriving DecidableEq, Repr

/-- The backing store: both tables and the next auto-increment ids. -/
structure DBState where
  oauths : List OAuthRow
  users : List UserRow
  nextOAuthId : Nat
  nextUserId : Nat
deriving DecidableEq, Repr

/-- The `where` clause of the handler's `findOrCreate`:
`{provider: profile.provider, uid: profile.id}`. -/
def matchesKey (p : Profile) (r : OAuthRow) : Bool :=
  r.provider == p.provider && r.uid == p.id

/-- `OAuth.findOrCreate({where: {provider, uid}})`: return the first row
matching the key, or create a fresh row carrying only the key fields.
Returns `((row, created), state)` mirroring the `[instance, created]`
fulfillment array. -/
def findOrCreate (st : DBState) (p : Profile) : (OAuthRow × Bool) × DBState :=
  match st.oauths.find? (matchesKey p) with
  | some r => ((r, false), st)
  | none =>
    let r : OAuthRow :=
      { rowId := st.nextOAuthId, uid := p.id, provider := p.provider,
        accessToken := none, refreshToken := none, token := none,
        tokenSecret := none, profileJson := none, userId := none }
    ((r, true), { st with oauths := st.oauths ++ [r],
                          nextOAuthId := st.nextOAuthId + 1 })

/-- `oauth.save()`: persist the in-memory row over the stored row with the
same row id. -/
def saveOAuth (st : DBState) (r : OAuthRow) : DBState :=
  { st with oauths := st.oauths.map (fun q => if q.rowId == r.rowId then r else q) }

/-- `oauth.getUser()`: resolve the association, i.e. the user the row's
foreign key points at, if any. -/
def getUser (st : DBState) (r : OAuthRow) : Option UserRow :=
  match r.userId with
  | none => none
  | some uid => st.users.find? (fun u => u.userId == uid)

/-- `User.create({name})`: insert a fresh user row. -/
def createUser (st : DBState) (name : String) : UserRow × DBState :=
  let u : UserRow := { userId := st.nextUserId, name := name }
  (u, { st with users := st.users ++ [u], nextUserId := st.nextUserId + 1 })

/-- `oauth.setUser(createdUser)`: point the row's foreign key at the user
and persist the association. -/
def setUser (st : DBState) (r : OAuthRow) (u : UserRow) : OAuthRow × DBState :=
  let r2 : OAuthRow := { r with userId := some u.userId }
  (r2, saveOAuth st r2)

/-- The two assignments `oauth.profileJson = profile` and
`oauth.accessToken = accessToken` performed between `findOrCreate` and the
`Promise.all` step. -/
def assignLoginFields (r : OAuthRow) (p : Profile) (accessToken : String) : OAuthRow :=
  { r with profileJson := some p, accessToken := some accessToken }

/-- Which awaited persistence operations reject, and with what error.
`none` everywhere means the fault-free run. -/
structure Faults where
  findOrCreateErr : Option String
  getUserErr : Option String
  saveErr : Option String
  createUserErr : Option String
  setUserErr : Option String
deriving DecidableEq, Repr

/-- The fault-free run: no awaited operation rejects. -/
def noFaults : Faults := ⟨none, none, none, none, none⟩

/-- Arguments of one call to the Passport `done` callback: `done(err)` is
`(some err, none)`, `done(null, user)` is `(none, some user)`. -/
abbrev DoneArgs := Option String × Option UserRow

/-- Suspension-point events of a single `OAuth.V2` invocation. -/
inductive Ev where
  | findOrCreateStart
  | findOrCreateDone
  | mutateFields
  | getUserStart
  | getUserDone
  | saveStart
  | saveDone
  | decideUser
  | userCreateStart
  | userCreateDone
  | setUserStart
  | setUserDone
deriving DecidableEq, Repr

/-- Observable outcome of one `OAuth.V2` invocation: every call made to
`done`, the final store, and the event trace. -/
structure V2Result where
  doneCalls : List DoneArgs
  finalState : DBState
  trace : List Ev
deriving DecidableEq, Repr

/-- Shallow embedding of `OAuth.V2`. The `try` body runs the awaited
operations in source order; any rejection (per `Faults`) transfers control
to the `catch` block, which calls `done(err)`. `sched` resolves the one
nondeterministic choice: which of the two `Promise.all` operations
(`oauth.getUser()` and `oauth.save()`) settles first. -/
def V2 (sched : Bool) (f : Faults) (st : DBState)
    (accessToken refreshToken : String) (profile : Profile) : V2Result :=
  match f.findOrCreateErr with
  | some e =>
    { doneCalls := [(some e, none)], finalState := st,
      trace := [Ev.findOrCreateStart] }
  | none =>
    let foc := findOrCreate st profile
    let oauth0 := foc.1.1
    let st1 := foc.2
    let oauth1 := assignLoginFields oauth0 profile accessToken
    let tr1 : List Ev :=
      [Ev.findOrCreateStart, Ev.findOrCreateDone, Ev.mutateFields,
       Ev.getUserStart, Ev.saveStart]
    match f.getUserErr with
    | some e => { doneCalls := [(some e, none)], finalState := st1, trace := tr1 }
    | none =>
      match f.saveErr with
      | some e => { doneCalls := [(some e, none)], finalState := st1, trace := tr1 }
      | none =>
        let st2 := saveOAuth st1 oauth1
        let tr2 := tr1
          ++ (if sched then [Ev.getUserDone, Ev.saveDone]
              else [Ev.saveDone, Ev.getUserDone])
          ++ [Ev.decideUser]
        match getUser st1 oauth1 with
        | some user =>
          { doneCalls := [(none, some user)], finalState := st2, trace := tr2 }
        | none =>
          match f.createUserErr with
          | some e =>
            { doneCalls := [(some e, none)], finalState := st2,
              trace := tr2 ++ [Ev.userCreateStart] }
          | none =>
            let cu := createUser st2 profile.displayName
            match f.setUserErr with
            | some e =>
              { doneCalls := [(some e, none)], finalState := cu.2,
                trace := tr2 ++ [Ev.userCreateStart, Ev.userCreateDone,
                                 Ev.setUserStart] }
            | none =>
              let su := setUser cu.2 oauth1 cu.1
              { doneCalls := [(none, some cu.1)], finalState := su.2,
                trace := tr2 ++ [Ev.userCreateStart, Ev.userCreateDone,
                                 Ev.setUserStart, Ev.setUserDone] }

/-- A JavaScript value as far as `setupStrategy` inspects it:
`typeof value === 'undefined'` and truthiness. -/
inductive JSValue where
  | undef
  | null
  | str (s : String)
  | num (n : Int)
  | boolean (b : Bool)
deriving DecidableEq, Repr

/-- `typeof value === 'undefined'`. -/
def typeofUndefined : JSValue → Bool
  | JSValue.undef => true
  | _ => false

/-- JavaScript truthiness of the modelled values (`!config[key]` is the
negation of this). -/
def truthy : JSValue → Bool
  | JSValue.undef => false
  | JSValue.null => false
  | JSValue.str s => !(s == "")
  | JSValue.num n => !(n == 0)
  | JSValue.boolean b => b

/-- Which login-completion callback is bound into the strategy; the
`oauth` parameter of `setupStrategy` defaults to `OAuth.V2`. -/
inductive CallbackRef where
  | v2
  | custom (tag : Nat)
deriving DecidableEq, Repr

/-- Debug lines `setupStrategy` can emit, by identity. -/
inductive LogLine where
  | needsEnvVar (provider key : String)
  | willNotInit (provider : String)
  | initProvider (provider : String)
deriving DecidableEq, Repr

/-- Observable outcome of one `setupStrategy` call: the debug lines and the
strategy instances passed to `passport.use`, in order. `σ` is the type of
instances the `strategy` constructor produces. -/
structure SetupResult (σ : Type) where
  logs : List LogLine
  registered : List σ
deriving DecidableEq, Repr

/-- Shallow embedding of `OAuth.setupStrategy`. `config` is the config
object as an ordered key-value list; `strategy` is the strategy
constructor, applied as `new strategy(config, oauth)`; the `registered`
list collects the arguments of each `passport.use` call. -/
def setupStrategy {σ : Type} (provider : String)
    (strategy : List (String × JSValue) → CallbackRef → σ)
    (config : List (String × JSValue)) (oauth : Option CallbackRef) :
    SetupResult σ :=
  let oauthCb := oauth.getD CallbackRef.v2
  let undefinedKeys := (config.map Prod.snd).filter typeofUndefined
  if undefinedKeys.length ≠ 0 then
    { logs := (config.filter (fun kv => !truthy kv.2)).map
                (fun kv => LogLine.needsEnvVar provider kv.1)
              ++ [LogLine.willNotInit provider],
      registered := [] }
  else
    { logs := [LogLine.initProvider provider],
      registered := [strategy config oauthCb] }

/-- A strategy instance as a plain record of its two constructor
arguments, used to instantiate `σ` in concrete runs. -/
structure StrategyInstance where
  config : List (String × JSValue)
  oauth : CallbackRef
deriving DecidableEq, Repr

/-- C1: every invocation of `OAuth.V2` — under any fault pattern, any
schedule of the parallel step, and any store — invokes the `done`
callback exactly once, and the single call carries either a non-null
error with no user or a null error with a user, never both; moreover
whenever an awaited operation that the run actually reaches rejects
(find-or-create; either `Promise.all` member; user creation or linking on
the new-user path), the rejection is caught and reported as that call:
`done(err)`, i.e. `(error, undefined)`. -/
theorem V2_done_exactly_once (sched : Bool) (f : Faults) (st : DBState)
    (tok ref : String) (p : Profile) :
    (V2 sched f st tok ref p).doneCalls.length = 1 ∧
    (∀ c ∈ (V2 sched f st tok ref p).doneCalls,
      (∃ e, c = (some e, none)) ∨ (∃ u, c = (none, some u))) ∧
    (∀ e, f.findOrCreateErr = some e →
      (V2 sched f st tok ref p).doneCalls = [(some e, none)]) ∧
    (f.findOrCreateErr = none → ∀ e, f.getUserErr = some e →
      (V2 sched f st tok ref p).doneCalls = [(some e, none)]) ∧
    (f.findOrCreateErr = none → f.getUserErr = none → ∀ e, f.saveErr = some e →
      (V2 sched f st tok ref p).doneCalls = [(some e, none)]) ∧
    (f.findOrCreateErr = none → f.getUserErr = none → f.saveErr = none →
      getUser (findOrCreate st p).2
          (assignLoginFields (findOrCreate st p).1.1 p tok) = none →
      ∀ e, f.createUserErr = some e →
      (V2 sched f st tok ref p).doneCalls = [(some e, none)]) ∧
    (f.findOrCreateErr = none → f.getUserErr = none → f.saveErr = none →
      getUser (findOrCreate st p).2
          (assignLoginFields (findOrCreate st p).1.1 p tok) = none →
      f.createUserErr = none → ∀ e, f.setUserErr = some e →
      (V2 sched f st tok ref p).doneCalls = [(some e, none)]) := by
  unfold V2
  dsimp only
  repeat' split
  all_goals refine ⟨rfl, fun c hc => ?_, ?_, ?_, ?_, ?_, ?_⟩
  all_goals simp_all

/-- Witness for C1: a rejecting find-or-create is reported as
`done(err)`, and so is a rejecting `User.create` on the new-user path. -/
theorem V2_done_exactly_once_witness :
    (V2 true ⟨some "boom", none, none, none, none⟩ ⟨[], [], 0, 0⟩ "t" "r"
        ⟨"github", "42", "Ada"⟩).doneCalls = [(some "boom", none)] ∧
    (V2 true ⟨none, none, none, some "uc", none⟩ ⟨[], [], 0, 0⟩ "t" "r"
        ⟨"github", "42", "Ada"⟩).doneCalls = [(some "uc", none)] :=
  ⟨(V2_done_exactly_once true ⟨some "boom", none, none, none, none⟩
      ⟨[], [], 0, 0⟩ "t" "r" ⟨"github", "42", "Ada"⟩).2.2.1 "boom" rfl,
   (V2_done_exactly_once true ⟨none, none, none, some "uc", none⟩
      ⟨[], [], 0, 0⟩ "t" "r" ⟨"github", "42", "Ada"⟩).2.2.2.2.2.1
     rfl rfl rfl rfl "uc" rfl⟩

/-- The uniqueness constraint the model declares —
`indexes: [{fields: ['uid'], unique: true}]` — read over a table: any two
rows at distinct positions have distinct `uid`. -/
def declaredUidUnique (rows : List OAuthRow) : Prop :=
  rows.Pairwise (fun a b => a.uid ≠ b.uid)

instance (rows : List OAuthRow) : Decidable (declaredUidUnique rows) :=
  List.instDecidablePairwise rows

/-- C2: in every store whose `oauths` table satisfies the uniqueness
constraint the model declares (a unique index on `uid` alone), any two
distinct persisted rows differ in the (provider, uid) pair — i.e. they
differ in provider or in uid. -/
theorem oauth_pair_unique (st : DBState)
    (h : declaredUidUnique st.oauths) :
    st.oauths.Pairwise
      (fun a b => (a.provider, a.uid) ≠ (b.provider, b.uid)) :=
  h.imp fun hne hEq => hne (congrArg Prod.snd hEq)

/-- Witness for C2 at a concrete two-row table. -/
theorem oauth_pair_unique_witness :
    declaredUidUnique
      (DBState.oauths ⟨[⟨1, "42", "github", none, none, none, none, none, some 7⟩,
                        ⟨2, "43", "github", none, none, none, none, none, some 8⟩],
                       [], 3, 9⟩) ∧
    (DBState.oauths ⟨[⟨1, "42", "github", none, none, none, none, none, some 7⟩,
                      ⟨2, "43", "github", none, none, none, none, none, some 8⟩],
                     [], 3, 9⟩).Pairwise
      (fun a b => (a.provider, a.uid) ≠ (b.provider, b.uid)) :=
  ⟨by decide,
   oauth_pair_unique
     ⟨[⟨1, "42", "github", none, none, none, none, none, some 7⟩,
       ⟨2, "43", "github", none, none, none, none, none, some 8⟩],
      [], 3, 9⟩ (by decide)⟩

/-- Mapping a pointwise-identity function over a table changes nothing. -/
theorem map_id_on (l : List OAuthRow) (f : OAuthRow → OAuthRow)
    (h : ∀ q ∈ l, f q = q) : l.map f = l := by
  induction l with
  | nil => rfl
  | cons a t ih =>
    rw [List.map_cons, h a (List.mem_cons_self a t),
        ih fun q hq => h q (List.mem_cons_of_mem a hq)]

/-- Saving a row whose id no stored row carries leaves the stored rows
unchanged (`saveOAuth`'s replacement map hits nothing). -/
theorem map_replace_fresh (l : List OAuthRow) (r : OAuthRow)
    (h : ∀ q ∈ l, q.rowId ≠ r.rowId) :
    l.map (fun q => if q.rowId == r.rowId then r else q) = l := by
  induction l with
  | nil => rfl
  | cons a t ih =>
    have ha : (a.rowId == r.rowId) = false :=
      beq_eq_false_iff_ne.mpr (h a (List.mem_cons_self a t))
    rw [List.map_cons, ha, ih fun q hq => h q (List.mem_cons_of_mem a hq)]
    simp

/-- C3: first login — when no row matches the profile's (provider, uid)
and the auto-increment id is fresh, a fault-free `OAuth.V2` run appends
exactly one `oauths` row (keyed by the profile's provider and external id,
carrying the new access token and profile snapshot, linked to the new
user), appends exactly one user named after the profile's display name,
and calls `done(null, thatNewUser)`. -/
theorem V2_first_login (sched : Bool) (st : DBState) (tok ref : String)
    (p : Profile)
    (hfind : st.oauths.find? (matchesKey p) = none)
    (hfresh : ∀ q ∈ st.oauths, q.rowId ≠ st.nextOAuthId) :
    (V2 sched noFaults st tok ref p).doneCalls
        = [(none, some ⟨st.nextUserId, p.displayName⟩)] ∧
    (V2 sched noFaults st tok ref p).finalState.oauths
        = st.oauths ++ [⟨st.nextOAuthId, p.id, p.provider, some tok,
                         none, none, none, some p, some st.nextUserId⟩] ∧
    (V2 sched noFaults st tok ref p).finalState.users
        = st.users ++ [⟨st.nextUserId, p.displayName⟩] := by
  unfold V2 noFaults
  dsimp only
  simp only [findOrCreate, hfind]
  simp only [getUser, assignLoginFields]
  refine ⟨rfl, ?_, ?_⟩
  · simp only [setUser, createUser, saveOAuth]
    dsimp only
    simp only [List.map_append, List.map_map, List.map_cons, List.map_nil]
    rw [show (List.map _ st.oauths = st.oauths) from ?_]
    · simp
    · refine map_id_on _ _ fun q hq => ?_
      simp [hfresh q hq]
  · simp [setUser, createUser, saveOAuth]

/-- Witness for C3: scenario A of the spec, from an empty store. -/
theorem V2_first_login_witness :
    (V2 true noFaults ⟨[], [], 0, 0⟩ "tok" "r" ⟨"github", "42", "Ada"⟩).doneCalls
        = [(none, some ⟨0, "Ada"⟩)] ∧
    (V2 true noFaults ⟨[], [], 0, 0⟩ "tok" "r" ⟨"github", "42", "Ada"⟩).finalState.oauths
        = [] ++ [⟨0, "42", "github", some "tok", none, none, none,
                  some ⟨"github", "42", "Ada"⟩, some 0⟩] ∧
    (V2 true noFaults ⟨[], [], 0, 0⟩ "tok" "r" ⟨"github", "42", "Ada"⟩).finalState.users
        = [] ++ [⟨0, "Ada"⟩] :=
  V2_first_login true ⟨[], [], 0, 0⟩ "tok" "r" ⟨"github", "42", "Ada"⟩
    (by decide) (by decide)

/-- C4: repeat login — when a row matching the profile's (provider, uid)
exists and is already linked to a stored user, a fault-free `OAuth.V2` run
calls `done(null, thatPreviouslyLinkedUser)`, leaves the `users` table
unchanged (no new user row), and preserves the `oauths` row count. -/
theorem V2_repeat_login (sched : Bool) (st : DBState) (tok ref : String)
    (p : Profile) (r : OAuthRow) (uid0 : Nat) (u : UserRow)
    (hfind : st.oauths.find? (matchesKey p) = some r)
    (hlink : r.userId = some uid0)
    (huser : st.users.find? (fun q => q.userId == uid0) = some u) :
    (V2 sched noFaults st tok ref p).doneCalls = [(none, some u)] ∧
    (V2 sched noFaults st tok ref p).finalState.users = st.users ∧
    (V2 sched noFaults st tok ref p).finalState.oauths.length
        = st.oauths.length := by
  unfold V2 noFaults
  dsimp only
  simp only [findOrCreate, hfind]
  simp only [getUser, assignLoginFields]
  rw [hlink]
  simp [huser, saveOAuth]

/-- Witness for C4: scenario B of the spec — the identity created in
scenario A logs in again. -/
theorem V2_repeat_login_witness :
    (V2 true noFaults
      ⟨[⟨0, "42", "github", some "tok", none, none, none,
         some ⟨"github", "42", "Ada"⟩, some 0⟩], [⟨0, "Ada"⟩], 1, 1⟩
      "tok2" "r2" ⟨"github", "42", "Ada"⟩).doneCalls
        = [(none, some ⟨0, "Ada"⟩)] ∧
    (V2 true noFaults
      ⟨[⟨0, "42", "github", some "tok", none, none, none,
         some ⟨"github", "42", "Ada"⟩, some 0⟩], [⟨0, "Ada"⟩], 1, 1⟩
      "tok2" "r2" ⟨"github", "42", "Ada"⟩).finalState.users
        = [⟨0, "Ada"⟩] ∧
    (V2 true noFaults
      ⟨[⟨0, "42", "github", some "tok", none, none, none,
         some ⟨"github", "42", "Ada"⟩, some 0⟩], [⟨0, "Ada"⟩], 1, 1⟩
      "tok2" "r2" ⟨"github", "42", "Ada"⟩).finalState.oauths.length
        = 1 :=
  V2_repeat_login true
    ⟨[⟨0, "42", "github", some "tok", none, none, none,
       some ⟨"github", "42", "Ada"⟩, some 0⟩], [⟨0, "Ada"⟩], 1, 1⟩
    "tok2" "r2" ⟨"github", "42", "Ada"⟩
    ⟨0, "42", "github", some "tok", none, none, none,
     some ⟨"github", "42", "Ada"⟩, some 0⟩ 0 ⟨0, "Ada"⟩
    (by decide) (by decide) (by decide)

/-- Shared helper: when no config value is `undefined`, the filter feeding
the skip test is empty, so `setupStrategy` takes the registration branch. -/
theorem setupStrategy_no_undef_registers {σ : Type} (provider : String)
    (strategy : List (String × JSValue) → CallbackRef → σ)
    (config : List (String × JSValue)) (oauth : Option CallbackRef)
    (h : ∀ kv ∈ config, kv.2 ≠ JSValue.undef) :
    (setupStrategy provider strategy config oauth).registered
        = [strategy config (oauth.getD CallbackRef.v2)] := by
  have hfil : (config.map Prod.snd).filter typeofUndefined = [] := by
    refine List.filter_eq_nil_iff.mpr fun v hv => ?_
    obtain ⟨kv, hkv, rfl⟩ := List.mem_map.mp hv
    cases hv2 : kv.2 with
    | undef => exact absurd hv2 (h kv hkv)
    | null => simp [typeofUndefined]
    | str s => simp [typeofUndefined]
    | num n => simp [typeofUndefined]
    | boolean b => simp [typeofUndefined]
  unfold setupStrategy
  rw [hfil]
  rfl

/-- C5: a config with any `undefined` value makes `setupStrategy` skip —
nothing is passed to `passport.use`, no strategy instance is constructed,
and the call returns normally (it is total). -/
theorem setupStrategy_skips_on_undefined {σ : Type} (provider : String)
    (strategy : List (String × JSValue) → CallbackRef → σ)
    (config : List (String × JSValue)) (oauth : Option CallbackRef)
    (h : ∃ kv ∈ config, kv.2 = JSValue.undef) :
    (setupStrategy provider strategy config oauth).registered = [] := by
  obtain ⟨kv, hkv, hv⟩ := h
  have hmem : kv.2 ∈ (config.map Prod.snd).filter typeofUndefined :=
    List.mem_filter.mpr ⟨List.mem_map_of_mem Prod.snd hkv, by rw [hv]; rfl⟩
  have hlen : ((config.map Prod.snd).filter typeofUndefined).length ≠ 0 := by
    intro h0
    rw [List.length_eq_zero] at h0
    rw [h0] at hmem
    exact absurd hmem (List.not_mem_nil _)
  unfold setupStrategy
  rw [if_pos hlen]

/-- Witness for C5: scenario C of the spec — a missing client secret. -/
theorem setupStrategy_skips_on_undefined_witness :
    (setupStrategy "facebook" StrategyInstance.mk
      [("clientID", JSValue.str "x"), ("clientSecret", JSValue.undef)]
      none).registered = [] :=
  setupStrategy_skips_on_undefined "facebook" StrategyInstance.mk
    [("clientID", JSValue.str "x"), ("clientSecret", JSValue.undef)]
    none (by decide)

/-- C6: a fully defined config makes `setupStrategy` call `passport.use`
exactly once, with the instance built by `new strategy(config, oauth)`;
when the `oauth` argument is not supplied it defaults to `OAuth.V2`. -/
theorem setupStrategy_registers_once {σ : Type} (provider : String)
    (strategy : List (String × JSValue) → CallbackRef → σ)
    (config : List (String × JSValue)) (oauth : Option CallbackRef)
    (h : ∀ kv ∈ config, kv.2 ≠ JSValue.undef) :
    (setupStrategy provider strategy config oauth).registered
        = [strategy config (oauth.getD CallbackRef.v2)] ∧
    (setupStrategy provider strategy config none).registered
        = [strategy config CallbackRef.v2] :=
  ⟨setupStrategy_no_undef_registers provider strategy config oauth h,
   setupStrategy_no_undef_registers provider strategy config none h⟩

/-- Witness for C6 at a fully populated config. -/
theorem setupStrategy_registers_once_witness :
    (setupStrategy "facebook" StrategyInstance.mk
      [("clientID", JSValue.str "x"), ("clientSecret", JSValue.str "y")]
      (some (CallbackRef.custom 5))).registered
        = [StrategyInstance.mk
            [("clientID", JSValue.str "x"), ("clientSecret", JSValue.str "y")]
            ((some (CallbackRef.custom 5)).getD CallbackRef.v2)] ∧
    (setupStrategy "facebook" StrategyInstance.mk
      [("clientID", JSValue.str "x"), ("clientSecret", JSValue.str "y")]
      none).registered
        = [StrategyInstance.mk
            [("clientID", JSValue.str "x"), ("clientSecret", JSValue.str "y")]
            CallbackRef.v2] :=
  setupStrategy_registers_once "facebook" StrategyInstance.mk
    [("clientID", JSValue.str "x"), ("clientSecret", JSValue.str "y")]
    (some (CallbackRef.custom 5)) (by decide)

/-- C7 counterexample: with `{clientID: undefined, clientSecret: ""}` the
key `clientSecret` holds a defined (but falsy) value, yet the skip path's
loop `if (!config[key]) debug('... needs environment var %s', ...)` emits
a missing-setting diagnostic naming it — contradicting the claim that
defined-valued keys produce no missing-setting diagnostic. -/
theorem setupStrategy_diag_counterexample :
    JSValue.str "" ≠ JSValue.undef ∧
    LogLine.needsEnvVar "facebook" "clientSecret" ∈
      (setupStrategy "facebook" StrategyInstance.mk
        [("clientID", JSValue.undef), ("clientSecret", JSValue.str "")]
        none).logs := by
  decide

/-- C7 (amended): when some config value is `undefined`, `setupStrategy`
emits exactly one missing-setting diagnostic per key whose value is falsy
(not merely per `undefined`-valued key), in config order, followed by
exactly one provider-skip message; keys with truthy values produce no
diagnostic. -/
theorem setupStrategy_diag_per_falsy {σ : Type} (provider : String)
    (strategy : List (String × JSValue) → CallbackRef → σ)
    (config : List (String × JSValue)) (oauth : Option CallbackRef)
    (h : ∃ kv ∈ config, kv.2 = JSValue.undef) :
    (setupStrategy provider strategy config oauth).logs
        = (config.filter (fun kv => !truthy kv.2)).map
            (fun kv => LogLine.needsEnvVar provider kv.1)
          ++ [LogLine.willNotInit provider] := by
  obtain ⟨kv, hkv, hv⟩ := h
  have hmem : kv.2 ∈ (config.map Prod.snd).filter typeofUndefined :=
    List.mem_filter.mpr ⟨List.mem_map_of_mem Prod.snd hkv, by rw [hv]; rfl⟩
  have hlen : ((config.map Prod.snd).filter typeofUndefined).length ≠ 0 := by
    intro h0
    rw [List.length_eq_zero] at h0
    rw [h0] at hmem
    exact absurd hmem (List.not_mem_nil _)
  unfold setupStrategy
  rw [if_pos hlen]

/-- Witness for C7's amended claim: both the undefined `clientID` and the
empty-string `clientSecret` are reported, then the skip message. -/
theorem setupStrategy_diag_per_falsy_witness :
    (setupStrategy "facebook" StrategyInstance.mk
      [("clientID", JSValue.undef), ("clientSecret", JSValue.str "")]
      none).logs
        = ([("clientID", JSValue.undef),
            ("clientSecret", JSValue.str "")].filter
              (fun kv => !truthy kv.2)).map
            (fun kv => LogLine.needsEnvVar "facebook" kv.1)
          ++ [LogLine.willNotInit "facebook"] :=
  setupStrategy_diag_per_falsy "facebook" StrategyInstance.mk
    [("clientID", JSValue.undef), ("clientSecret", JSValue.str "")]
    none (by decide)

/-- C10: the skip test is strictly `typeof value === 'undefined'`: a
config whose values are all defined but some falsy (empty string, null,
0, false) is not skipped — the strategy is constructed and registered. -/
theorem setupStrategy_falsy_defined_registers {σ : Type} (provider : String)
    (strategy : List (String × JSValue) → CallbackRef → σ)
    (config : List (String × JSValue)) (oauth : Option CallbackRef)
    (hdef : ∀ kv ∈ config, kv.2 ≠ JSValue.undef)
    (hfalsy : ∃ kv ∈ config, truthy kv.2 = false) :
    (setupStrategy provider strategy config oauth).registered
        = [strategy config (oauth.getD CallbackRef.v2)] :=
  setupStrategy_no_undef_registers provider strategy config oauth hdef

/-- Witness for C10: all four falsy-but-defined values at once. -/
theorem setupStrategy_falsy_defined_registers_witness :
    (setupStrategy "facebook" StrategyInstance.mk
      [("clientID", JSValue.str ""), ("clientSecret", JSValue.null),
       ("port", JSValue.num 0), ("secure", JSValue.boolean false)]
      none).registered
        = [StrategyInstance.mk
            [("clientID", JSValue.str ""), ("clientSecret", JSValue.null),
             ("port", JSValue.num 0), ("secure", JSValue.boolean false)]
            ((none : Option CallbackRef).getD CallbackRef.v2)] :=
  setupStrategy_falsy_defined_registers "facebook" StrategyInstance.mk
    [("clientID", JSValue.str ""), ("clientSecret", JSValue.null),
     ("port", JSValue.num 0), ("secure", JSValue.boolean false)]
    none (by decide) (by decide)

/-- `a` strictly precedes every occurrence of `b` in the trace `tr`
(vacuously true when either event does not occur). -/
def precedes (a b : Ev) (tr : List Ev) : Prop :=
  ∀ i j : Fin tr.length, tr.get i = a → tr.get j = b → (i : Nat) < (j : Nat)

instance (a b : Ev) (tr : List Ev) : Decidable (precedes a b tr) :=
  inferInstanceAs (Decidable (∀ i j : Fin tr.length,
    tr.get i = a → tr.get j = b → (i : Nat) < (j : Nat)))

/-- C8: in every `OAuth.V2` invocation the find-or-create completion
precedes the profile/token mutation and both parallel starts; the
mutation precedes both parallel starts; both parallel completions precede
the new-user decision. The two `Promise.all` operations may complete in
either order (both schedules are realizable), and the callback outcome
and final store are identical under both. -/
theorem V2_operation_order (sched : Bool) (f : Faults) (st : DBState)
    (tok ref : String) (p : Profile) :
    precedes Ev.findOrCreateDone Ev.mutateFields (V2 sched f st tok ref p).trace ∧
    precedes Ev.findOrCreateDone Ev.getUserStart (V2 sched f st tok ref p).trace ∧
    precedes Ev.findOrCreateDone Ev.saveStart (V2 sched f st tok ref p).trace ∧
    precedes Ev.mutateFields Ev.getUserStart (V2 sched f st tok ref p).trace ∧
    precedes Ev.mutateFields Ev.saveStart (V2 sched f st tok ref p).trace ∧
    precedes Ev.getUserDone Ev.decideUser (V2 sched f st tok ref p).trace ∧
    precedes Ev.saveDone Ev.decideUser (V2 sched f st tok ref p).trace ∧
    precedes Ev.getUserDone Ev.saveDone (V2 true f st tok ref p).trace ∧
    precedes Ev.saveDone Ev.getUserDone (V2 false f st tok ref p).trace ∧
    (V2 true f st tok ref p).doneCalls = (V2 false f st tok ref p).doneCalls ∧
    (V2 true f st tok ref p).finalState = (V2 false f st tok ref p).finalState := by
  cases sched <;>
    · unfold V2
      dsimp only
      simp only [eq_self_iff_true, if_true, Bool.false_eq_true, if_false]
      repeat' split
      all_goals
        refine ⟨?_, ?_, ?_, ?_, ?_, ?_, ?_, ?_, ?_, by rfl, by rfl⟩ <;>
          (dsimp only; decide)

/-- C9: `OAuth.V2` assigns only `profileJson` and `accessToken` before
saving — the mutation leaves `refreshToken`, `token` and `tokenSecret`
(and the key fields and association) unchanged — and the whole handler is
independent of its `refreshToken` argument, which is never stored. -/
theorem V2_refresh_token_never_stored (r : OAuthRow) (p : Profile)
    (tok : String) (sched : Bool) (f : Faults) (st : DBState)
    (rt rt2 : String) :
    (assignLoginFields r p tok).refreshToken = r.refreshToken ∧
    (assignLoginFields r p tok).token = r.token ∧
    (assignLoginFields r p tok).tokenSecret = r.tokenSecret ∧
    (assignLoginFields r p tok).uid = r.uid ∧
    (assignLoginFields r p tok).provider = r.provider ∧
    (assignLoginFields r p tok).userId = r.userId ∧
    V2 sched f st tok rt p = V2 sched f st tok rt2 p :=
  ⟨rfl, rfl, rfl, rfl, rfl, rfl, rfl⟩
